import Mathlib

/-!
Shallow embedding of the Wallbox charger driver
(`src/drivers/wallbox/device.js`) reconciliation core: the poll cycle,
status-change triggers, capability diffing, session-cost accumulation,
lifetime-energy summation and the poll scheduler.  JS numbers are
modelled as rationals, JS `null`/`undefined` capability reads as
`Option`, and a thrown `TypeError` as an explicit error value threaded
through each function's result.
-/

namespace Wallbox

/-- A value held by a named capability (JS string / boolean / number). -/
inductive CapVal where
  | str (s : String)
  | bool (b : Bool)
  | num (q : ℚ)
deriving DecidableEq

/-- One `setCapabilityValue(name, value)` call, recorded as a write. -/
abbrev Write := String × CapVal

/-- One `driver.trigger(...)` call fired by `triggerStatusChange`. -/
inductive Event where
  | status_changed (oldStatus : Option String) (newStatus : String)
  | charging_started
  | charging_ended
  | car_connected
  | car_unplugged
deriving DecidableEq

/-- A thrown JS error (here only `TypeError`, from reading a property of
`undefined`, as in `stats['config_data']['locked']` with a missing
config block, or iterating `sessions['data']` when absent). -/
inductive JsError where
  | typeError
deriving DecidableEq

instance : DecidableEq (Except JsError ℚ) := fun a b =>
  match a, b with
  | Except.ok x, Except.ok y =>
      if h : x = y then isTrue (h ▸ rfl)
      else isFalse (fun he => h (Except.ok.inj he))
  | Except.error x, Except.error y =>
      if h : x = y then isTrue (h ▸ rfl)
      else isFalse (fun he => h (Except.error.inj he))
  | Except.ok _, Except.error _ => isFalse (fun he => Except.noConfusion he)
  | Except.error _, Except.ok _ => isFalse (fun he => Except.noConfusion he)

/-- One element of `sessions['data']` from `getSessionsList`: its
`attributes.charger` id and possibly-undefined `attributes.energy`. -/
structure Session where
  charger : String
  energy : Option ℚ
deriving DecidableEq

/-- The `config_data` block of a charger status response. -/
structure ChargerConfig where
  locked : Bool
  max_available_current : ℚ
  max_charging_current : ℚ
  energy_price : ℚ
deriving DecidableEq

/-- The `stats` object returned by `getChargerStatus`; `config_data` is
`none` when the block is missing from the response. -/
structure ChargerSnapshot where
  status_id : ℕ
  charging_power : ℚ
  added_energy : ℚ
  user_id : ℤ
  user_name : String
  config_data : Option ChargerConfig
deriving DecidableEq

/-- The device's capability store (`getCapabilityValue` /
`setCapabilityValue`): each observable holds `none` before its first
write (JS `null`), plus the availability flag set by
`setAvailable` / `setUnavailable`. -/
structure DeviceState where
  status : Option String
  locked : Option Bool
  onoff : Option Bool
  maximum_available_current : Option ℚ
  measure_power : Option ℚ
  meter_power_session : Option ℚ
  meter_session_cost : Option ℚ
  meter_power : Option ℚ
  measure_energy_cost : Option ℚ
  measure_maximum_charging_current : Option ℚ
  user_id : Option String
  user_name : Option String
  available : Bool
deriving DecidableEq

/-- Outcome of one `poll()` call: final capability store, the ordered
`setCapabilityValue` writes, the ordered trigger events, and `some e`
when the call rejects with an uncaught error. -/
structure PollResult where
  state : DeviceState
  writes : List Write
  events : List Event
  error : Option JsError
deriving DecidableEq

/-- JS `ToNumber` coercion applied to a possibly-`null` capability value
(`null` coerces to `0` in `<` and `+`). -/
def jsToNum (o : Option ℚ) : ℚ := o.getD 0

/-- Modelled from the spec: `status_util.getStatus` lives in
`lib/statuses.js`, which is not under `src/`; the spec fixes only that
it is a fixed total lookup from integer codes to canonical names with
fallback `Unknown`.  A representative table is used; no claim depends
on the particular code assignments. -/
def getStatus (code : ℕ) : String :=
  if code = 0 ∨ code = 163 then "Disconnected"
  else if code = 161 ∨ code = 162 then "Ready"
  else if code = 193 ∨ code = 194 ∨ code = 195 then "Charging"
  else if code = 178 ∨ code = 182 then "Paused"
  else if code = 14 ∨ code = 15 then "Error"
  else if code = 166 then "Updating"
  else if code = 4 then "Discharging"
  else if code = 5 then "WaitingMID"
  else if code = 209 ∨ code = 210 then "Locked"
  else "Unknown"

/-- `getChargerStatusName(stats)`: normalize `stats['status_id']`. -/
def getChargerStatusName (stats : ChargerSnapshot) : String :=
  getStatus stats.status_id

/-- `whenChangedSetCapabilityValue(capabilityName, value)`: the read of
`getCapabilityValue(capabilityName)` and the conditional
`setCapabilityValue` are threaded explicitly: `old` is the held value
and the first component is the value held afterwards.  The JS strict
compare `current !== old` is `some current ≠ old` (a number is never
strictly equal to `null`). -/
def whenChangedSetCapabilityValue {α : Type} [DecidableEq α]
    (capabilityName : String) (toCap : α → CapVal)
    (old : Option α) (currentCapabilityValue : α) : Option α × List Write :=
  if old ≠ some currentCapabilityValue then
    (some currentCapabilityValue, [(capabilityName, toCap currentCapabilityValue)])
  else (old, [])

/-- `retrieveEnergyHistoricalTotal()`: folds over `sessions['data']`,
adding `attributes.energy` of sessions whose `attributes.charger`
matches the device id and whose energy is defined.  A response with a
missing `data` list (`sessionsResp = none`) makes the `for...of` throw
a `TypeError`. -/
def retrieveEnergyHistoricalTotal (sessionsResp : Option (List Session))
    (id : String) : Except JsError ℚ :=
  match sessionsResp with
  | none => Except.error JsError.typeError
  | some l =>
      Except.ok (l.foldl
        (fun totalEnergy session =>
          if session.charger = id then
            match session.energy with
            | some e => totalEnergy + e
            | none => totalEnergy
          else totalEnergy) 0)

/-- `whenChangedSetTotalEnergy(current, old)`: fetches the historical
total, then writes `meter_power := totalEnergy + current` when
`current + totalEnergy !== old + totalEnergy` (with `null` old coercing
to `0`).  The source's `totalEnergy !== undefined` guard is vacuous:
`retrieveEnergyHistoricalTotal` either throws or returns a number. -/
def whenChangedSetTotalEnergy (s : DeviceState)
    (currentSessionEnergySupplied : ℚ) (oldSessionEnergySupplied : Option ℚ)
    (sessionsResp : Option (List Session)) (id : String) :
    DeviceState × List Write × Option JsError :=
  match retrieveEnergyHistoricalTotal sessionsResp id with
  | Except.error e => (s, [], some e)
  | Except.ok totalEnergy =>
      if currentSessionEnergySupplied + totalEnergy ≠
          jsToNum oldSessionEnergySupplied + totalEnergy then
        ({ s with meter_power := some (totalEnergy + currentSessionEnergySupplied) },
         [("meter_power", CapVal.num (totalEnergy + currentSessionEnergySupplied))],
         none)
      else (s, [], none)

/-- `whenChangedSetSessionCost(current, old, energyCost)`: the held
`meter_session_cost` read is threaded as `oldSessionCost`; the first
component is the value held afterwards.  `null` previous energy or cost
coerce to `0` in the arithmetic. -/
def whenChangedSetSessionCost (oldSessionCost : Option ℚ)
    (currentSessionEnergySupplied : ℚ) (oldSessionEnergySupplied : Option ℚ)
    (energyCost : ℚ) : Option ℚ × List Write :=
  let sessionCost : ℚ :=
    if currentSessionEnergySupplied < jsToNum oldSessionEnergySupplied ∨
        currentSessionEnergySupplied = 0 then
      currentSessionEnergySupplied * energyCost
    else
      jsToNum oldSessionCost +
        (currentSessionEnergySupplied - jsToNum oldSessionEnergySupplied) * energyCost
  if oldSessionCost ≠ some sessionCost then
    (some sessionCost, [("meter_session_cost", CapVal.num sessionCost)])
  else (oldSessionCost, [])

/-- `triggerStatusChange(oldStatus, newStatus)`: always fires
`status_changed`; stops when the new status is `Error` or `Updating`;
then one trigger from the previous status and one from the current. -/
def triggerStatusChange (oldStatus : Option String) (newStatus : String) :
    List Event :=
  Event.status_changed oldStatus newStatus ::
    (if newStatus = "Error" ∨ newStatus = "Updating" then []
     else
       (if oldStatus = some "Charging" then [Event.charging_ended]
        else if oldStatus = some "Ready" then [Event.car_connected]
        else []) ++
       (if newStatus = "Charging" then [Event.charging_started]
        else if newStatus = "Ready" then [Event.car_unplugged]
        else []))

/-- `whenChangedSetAndTriggerStatus(stats)`: write the `status`
observable and fire the transition triggers only when it changed. -/
def whenChangedSetAndTriggerStatus (s : DeviceState) (stats : ChargerSnapshot) :
    DeviceState × List Write × List Event :=
  let oldStatus := s.status
  let newStatus := getChargerStatusName stats
  if oldStatus ≠ some newStatus then
    ({ s with status := some newStatus },
     [("status", CapVal.str newStatus)],
     triggerStatusChange oldStatus newStatus)
  else (s, [], [])

/-- `checkDeviceAvailability(stats)`: unavailable when the reported
status is `Disconnected` or `Error`, available otherwise. -/
def checkDeviceAvailability (s : DeviceState) (stats : ChargerSnapshot) :
    DeviceState :=
  let newStatus := getChargerStatusName stats
  if newStatus = "Disconnected" ∨ newStatus = "Error" then
    { s with available := false }
  else { s with available := true }

/-- `whenChangedSetCapabilities(stats)`: the per-observable diffed
writes in source order.  Reading `stats['config_data'][...]` with a
missing config block throws before any write; a throw inside
`whenChangedSetTotalEnergy` aborts after the first four observables. -/
def whenChangedSetCapabilities (s : DeviceState) (stats : ChargerSnapshot)
    (sessionsResp : Option (List Session)) (id : String) :
    DeviceState × List Write × Option JsError :=
  match stats.config_data with
  | none => (s, [], some JsError.typeError)
  | some config =>
    let isLocked := config.locked
    let r1 := whenChangedSetCapabilityValue "locked" CapVal.bool s.locked isLocked
    let s1 := { s with locked := r1.1 }
    let newStatus := getChargerStatusName stats
    let r2 := whenChangedSetCapabilityValue "onoff" CapVal.bool s1.onoff
      (newStatus != "Paused")
    let s2 := { s1 with onoff := r2.1 }
    let r3 := whenChangedSetCapabilityValue "maximum_available_current" CapVal.num
      s2.maximum_available_current config.max_available_current
    let s3 := { s2 with maximum_available_current := r3.1 }
    let chargingPowerInW := stats.charging_power * 1000
    let r4 := whenChangedSetCapabilityValue "measure_power" CapVal.num
      s3.measure_power chargingPowerInW
    let s4 := { s3 with measure_power := r4.1 }
    let oldSessionEnergySupplied := s4.meter_power_session
    let sessionEnergySupplied := stats.added_energy
    let energyCost := config.energy_price
    let r5 := whenChangedSetTotalEnergy s4 sessionEnergySupplied
      oldSessionEnergySupplied sessionsResp id
    match r5.2.2 with
    | some e => (r5.1, r1.2 ++ r2.2 ++ r3.2 ++ r4.2 ++ r5.2.1, some e)
    | none =>
      let r6 := whenChangedSetSessionCost r5.1.meter_session_cost
        sessionEnergySupplied oldSessionEnergySupplied energyCost
      let s6 := { r5.1 with meter_session_cost := r6.1 }
      let r7 := whenChangedSetCapabilityValue "meter_power_session" CapVal.num
        s6.meter_power_session sessionEnergySupplied
      let s7 := { s6 with meter_power_session := r7.1 }
      let r8 := whenChangedSetCapabilityValue "measure_energy_cost" CapVal.num
        s7.measure_energy_cost energyCost
      let s8 := { s7 with measure_energy_cost := r8.1 }
      let r9 := whenChangedSetCapabilityValue "measure_maximum_charging_current"
        CapVal.num s8.measure_maximum_charging_current config.max_charging_current
      let s9 := { s8 with measure_maximum_charging_current := r9.1 }
      let userId := toString stats.user_id
      let r10 := whenChangedSetCapabilityValue "user_id" CapVal.str s9.user_id userId
      let s10 := { s9 with user_id := r10.1 }
      let r11 := whenChangedSetCapabilityValue "user_name" CapVal.str
        s10.user_name stats.user_name
      let s11 := { s10 with user_name := r11.1 }
      (s11,
       r1.2 ++ r2.2 ++ r3.2 ++ r4.2 ++ r5.2.1 ++ r6.2 ++ r7.2 ++ r8.2 ++ r9.2 ++
         r10.2 ++ r11.2,
       none)

/-- `retrieveChargerStats()`: `fetched` is the outcome of the external
`getChargerStatus` call (`none` = rejected); the catch block marks the
device unavailable and returns `undefined`. -/
def retrieveChargerStats (s : DeviceState) (fetched : Option ChargerSnapshot) :
    DeviceState × Option ChargerSnapshot :=
  match fetched with
  | some stats => (s, some stats)
  | none => ({ s with available := false }, none)

/-- `poll()`: one polling iteration, with the fetch outcome and the
sessions-list response supplied as the external API's behaviour. -/
def poll (s : DeviceState) (fetched : Option ChargerSnapshot)
    (sessionsResp : Option (List Session)) (id : String) : PollResult :=
  let r0 := retrieveChargerStats s fetched
  match r0.2 with
  | none => { state := r0.1, writes := [], events := [], error := none }
  | some stats =>
      let s1 := checkDeviceAvailability r0.1 stats
      let r2 := whenChangedSetAndTriggerStatus s1 stats
      let r3 := whenChangedSetCapabilities r2.1 stats sessionsResp id
      { state := r3.1, writes := r2.2.1 ++ r3.2.1, events := r2.2.2,
        error := r3.2.2 }

/-- Action performed on the host timer by the scheduling code. -/
inductive SchedAction where
  | setIntervalEvery (periodMs : ℚ)
  | clearTimer
  | callPoll
deriving DecidableEq

/-- The host's timer for one device: the armed period, if any. -/
structure SchedTimer where
  period : Option ℚ
deriving DecidableEq

/-- Default poll interval (`POLL_INTERVAL = 10`). -/
def POLL_INTERVAL : ℚ := 10

/-- `setupDevicePollingAndDoFirstPoll()`: default the `polling` setting
when falsy, arm the interval timer with `1000 * polling`, then call
`poll()` once directly. -/
def setupDevicePollingAndDoFirstPoll (pollingSetting : Option ℚ) :
    List SchedAction :=
  let polling :=
    match pollingSetting with
    | none => POLL_INTERVAL
    | some p => if p = 0 then POLL_INTERVAL else p
  [SchedAction.setIntervalEvery (1000 * polling), SchedAction.callPoll]

/-- `onSettings({newSettings})`: cancel the running timer and re-arm it
with the new period; no direct `poll()` call. -/
def onSettings (newPolling : ℚ) : List SchedAction :=
  [SchedAction.clearTimer, SchedAction.setIntervalEvery (1000 * newPolling)]

/-- Host timer semantics (outside `src/`): arming replaces the timer,
clearing disarms it, and a direct call invokes the cycle once.  Returns
the new timer and how many immediate cycle invocations the action
performed. -/
def runSchedAction : SchedTimer → SchedAction → SchedTimer × ℕ
  | _, SchedAction.setIntervalEvery p => (⟨some p⟩, 0)
  | _, SchedAction.clearTimer => (⟨none⟩, 0)
  | t, SchedAction.callPoll => (t, 1)

/-- Run a list of scheduler actions, counting immediate cycle calls. -/
def runSchedActions (t : SchedTimer) (l : List SchedAction) : SchedTimer × ℕ :=
  l.foldl (fun acc a =>
    let r := runSchedAction acc.1 a
    (r.1, acc.2 + r.2)) (t, 0)

/-- Host timer semantics: an armed interval timer fires the cycle once
per elapsed period; a disarmed one never fires. -/
def tickPolls (t : SchedTimer) : ℕ :=
  if t.period.isSome then 1 else 0

/-- Predicate selecting the three session-derived observables. -/
def threeNames (n : String) : Bool :=
  n == "meter_power" || n == "meter_session_cost" || n == "meter_power_session"

/-- A representative config block used by concrete test states. -/
def exConfig : ChargerConfig := ⟨true, 32, 16, 1/2⟩

/-- A well-formed snapshot: status 193 (Charging), 5 kW, 2 kWh session. -/
def exSnap : ChargerSnapshot := ⟨193, 5, 2, 7, "bob", some exConfig⟩

/-- The same snapshot with the config block missing. -/
def exSnapNoConfig : ChargerSnapshot := ⟨193, 5, 2, 7, "bob", none⟩

/-- A device state already synchronized with `exSnap` except for the
session-energy pair. -/
def exState : DeviceState :=
  ⟨some "Charging", some true, some true, some 32, some 5000, some 2, some 1,
   some 3, some (1/2), some 16, some (toString (7 : ℤ)), some "bob", true⟩

/-- A device state matching `exSnap` on everything except the three
session-derived observables (held session energy 1, cost 1, lifetime 3). -/
def exState8 : DeviceState :=
  ⟨some "Charging", some true, some true, some 32, some 5000, some 1, some 1,
   some 3, some (1/2), some 16, some (toString (7 : ℤ)), some "bob", true⟩

/-- A device state holding lifetime energy 10 with held session energy 2. -/
def exState7 : DeviceState :=
  ⟨some "Charging", some true, some true, some 32, some 5000, some 2, some 1,
   some 10, some (1/2), some 16, some (toString (7 : ℤ)), some "bob", true⟩

/-- A snapshot reporting a session reset (added energy 0). -/
def exSnap7 : ChargerSnapshot := ⟨193, 5, 0, 7, "bob", some exConfig⟩

/-- The spec's worked example session history. -/
def exSessions : List Session := [⟨"A", some 5⟩, ⟨"B", some 9⟩, ⟨"A", none⟩]

@[simp] theorem jsToNum_some (q : ℚ) : jsToNum (some q) = q := rfl

@[simp] theorem jsToNum_none : jsToNum none = 0 := rfl

theorem wcscv_fst {α : Type} [DecidableEq α] (n : String) (f : α → CapVal)
    (old : Option α) (v : α) :
    (whenChangedSetCapabilityValue n f old v).1 = some v := by
  unfold whenChangedSetCapabilityValue
  split
  · rfl
  · rename_i h
    exact not_not.mp h

theorem wcscv_eq_silent {α : Type} [DecidableEq α] (n : String) (f : α → CapVal)
    (v : α) :
    whenChangedSetCapabilityValue n f (some v) v = (some v, []) := by
  simp [whenChangedSetCapabilityValue]

theorem ite_write_fst {α : Type} [DecidableEq α] (old : Option α) (v : α)
    (w : List Write) :
    (if old ≠ some v then (some v, w) else (old, ([] : List Write))).1 = some v := by
  split
  · rfl
  · rename_i h
    exact not_not.mp h

theorem ite_write_cases {α : Type} [DecidableEq α] (old : Option α) (v : α)
    (w : List Write) :
    (if old ≠ some v then (some v, w) else (old, ([] : List Write))).2 = [] ∨
    (if old ≠ some v then (some v, w) else (old, ([] : List Write))).1 ≠ old := by
  split
  · rename_i h
    exact Or.inr (Ne.symm h)
  · exact Or.inl rfl

theorem ite_write_snd_eq {α : Type} [DecidableEq α] (old : Option α) (v : α)
    (w : List Write) :
    (if old ≠ some v then (some v, w) else (old, ([] : List Write))).2 =
      if old ≠ some v then w else [] := by
  split <;> rfl

theorem wcssc_fst (oldC : Option ℚ) (cur : ℚ) (oldE : Option ℚ) (p : ℚ) :
    (whenChangedSetSessionCost oldC cur oldE p).1 =
      some (if cur < jsToNum oldE ∨ cur = 0 then cur * p
            else jsToNum oldC + (cur - jsToNum oldE) * p) :=
  ite_write_fst oldC _ _

theorem wcssc_silent (k cur p : ℚ) (hk : cur = 0 → k = 0) :
    whenChangedSetSessionCost (some k) cur (some cur) p = (some k, []) := by
  unfold whenChangedSetSessionCost
  by_cases h0 : cur = 0
  · subst h0
    simp [hk rfl]
  · simp [h0]

theorem wcste_silent (s : DeviceState) (cur : ℚ) (sr : Option (List Session))
    (id : String) :
    whenChangedSetTotalEnergy s cur (some cur) sr id =
      (s, [],
       match retrieveEnergyHistoricalTotal sr id with
       | Except.error e => some e
       | Except.ok _ => none) := by
  unfold whenChangedSetTotalEnergy
  cases hr : retrieveEnergyHistoricalTotal sr id <;> simp [hr]

theorem wcsats_fst (s : DeviceState) (stats : ChargerSnapshot) :
    (whenChangedSetAndTriggerStatus s stats).1 =
      { s with status := some (getChargerStatusName stats) } := by
  by_cases h : s.status = some (getChargerStatusName stats) <;>
    cases s <;> simp_all [whenChangedSetAndTriggerStatus]

theorem wcsats_silent (s : DeviceState) (stats : ChargerSnapshot)
    (h : s.status = some (getChargerStatusName stats)) :
    whenChangedSetAndTriggerStatus s stats = (s, [], []) := by
  unfold whenChangedSetAndTriggerStatus
  simp [h]

theorem cda_eq (s : DeviceState) (stats : ChargerSnapshot) :
    checkDeviceAvailability s stats =
      { s with available :=
          !(decide (getChargerStatusName stats = "Disconnected" ∨
                    getChargerStatusName stats = "Error")) } := by
  by_cases h : getChargerStatusName stats = "Disconnected" ∨
      getChargerStatusName stats = "Error" <;>
    simp [checkDeviceAvailability, h]

theorem wcsc_state_err (s : DeviceState) (stats : ChargerSnapshot)
    (sr : Option (List Session)) (id : String) (c : ChargerConfig) (e : JsError)
    (hc : stats.config_data = some c)
    (hr : retrieveEnergyHistoricalTotal sr id = Except.error e) :
    (whenChangedSetCapabilities s stats sr id).1 =
      { s with
        locked := some c.locked,
        onoff := some (getChargerStatusName stats != "Paused"),
        maximum_available_current := some c.max_available_current,
        measure_power := some (stats.charging_power * 1000) } ∧
    (whenChangedSetCapabilities s stats sr id).2.2 = some e := by
  refine ⟨?_, ?_⟩ <;>
    simp [whenChangedSetCapabilities, whenChangedSetTotalEnergy, hc, hr,
      wcscv_fst]

theorem wcsc_state_ok (s : DeviceState) (stats : ChargerSnapshot)
    (sr : Option (List Session)) (id : String) (c : ChargerConfig) (T : ℚ)
    (hc : stats.config_data = some c)
    (hr : retrieveEnergyHistoricalTotal sr id = Except.ok T) :
    (whenChangedSetCapabilities s stats sr id).1 =
      { s with
        locked := some c.locked,
        onoff := some (getChargerStatusName stats != "Paused"),
        maximum_available_current := some c.max_available_current,
        measure_power := some (stats.charging_power * 1000),
        meter_power :=
          (if stats.added_energy + T ≠ jsToNum s.meter_power_session + T then
            some (T + stats.added_energy)
          else s.meter_power),
        meter_session_cost :=
          (whenChangedSetSessionCost s.meter_session_cost stats.added_energy
            s.meter_power_session c.energy_price).1,
        meter_power_session := some stats.added_energy,
        measure_energy_cost := some c.energy_price,
        measure_maximum_charging_current := some c.max_charging_current,
        user_id := some (toString stats.user_id),
        user_name := some stats.user_name } ∧
    (whenChangedSetCapabilities s stats sr id).2.2 = none := by
  by_cases hT : stats.added_energy + T ≠ jsToNum s.meter_power_session + T
  · refine ⟨?_, ?_⟩ <;>
      simp [whenChangedSetCapabilities, whenChangedSetTotalEnergy, hc, hr,
        wcscv_fst, hT]
  · push_neg at hT
    refine ⟨?_, ?_⟩ <;>
      simp [whenChangedSetCapabilities, whenChangedSetTotalEnergy, hc, hr,
        wcscv_fst, hT]

theorem wcsc_silent_err (t : DeviceState) (stats : ChargerSnapshot)
    (sr : Option (List Session)) (id : String) (c : ChargerConfig) (e : JsError)
    (hc : stats.config_data = some c)
    (hr : retrieveEnergyHistoricalTotal sr id = Except.error e)
    (h1 : t.locked = some c.locked)
    (h2 : t.onoff = some (getChargerStatusName stats != "Paused"))
    (h3 : t.maximum_available_current = some c.max_available_current)
    (h4 : t.measure_power = some (stats.charging_power * 1000)) :
    (whenChangedSetCapabilities t stats sr id).2.1 = [] := by
  simp [whenChangedSetCapabilities, whenChangedSetTotalEnergy, hc, hr,
    h1, h2, h3, h4, wcscv_eq_silent]

theorem wcsc_silent_ok (t : DeviceState) (stats : ChargerSnapshot)
    (sr : Option (List Session)) (id : String) (c : ChargerConfig) (T k : ℚ)
    (hc : stats.config_data = some c)
    (hr : retrieveEnergyHistoricalTotal sr id = Except.ok T)
    (h1 : t.locked = some c.locked)
    (h2 : t.onoff = some (getChargerStatusName stats != "Paused"))
    (h3 : t.maximum_available_current = some c.max_available_current)
    (h4 : t.measure_power = some (stats.charging_power * 1000))
    (h5 : t.meter_power_session = some stats.added_energy)
    (h6 : t.meter_session_cost = some k)
    (hk : stats.added_energy = 0 → k = 0)
    (h7 : t.measure_energy_cost = some c.energy_price)
    (h8 : t.measure_maximum_charging_current = some c.max_charging_current)
    (h9 : t.user_id = some (toString stats.user_id))
    (h10 : t.user_name = some stats.user_name) :
    (whenChangedSetCapabilities t stats sr id).2.1 = [] := by
  simp [whenChangedSetCapabilities, whenChangedSetTotalEnergy, hc, hr,
    h1, h2, h3, h4, h5, h6, h7, h8, h9, h10, wcscv_eq_silent,
    wcssc_silent k stats.added_energy c.energy_price hk]

theorem wcscv_snd_of_ne {α : Type} [DecidableEq α] (n : String) (f : α → CapVal)
    (old : Option α) (v : α) (h : old ≠ some v) :
    (whenChangedSetCapabilityValue n f old v).2 = [(n, f v)] := by
  unfold whenChangedSetCapabilityValue
  rw [if_pos h]

theorem wcssc_snd_of_ne (oldC : Option ℚ) (cur : ℚ) (oldE : Option ℚ) (p : ℚ)
    (h : oldC ≠ (whenChangedSetSessionCost oldC cur oldE p).1) :
    (whenChangedSetSessionCost oldC cur oldE p).2 =
      [("meter_session_cost", CapVal.num
        (if cur < jsToNum oldE ∨ cur = 0 then cur * p
         else jsToNum oldC + (cur - jsToNum oldE) * p))] := by
  rw [wcssc_fst] at h
  show (if oldC ≠ some (if cur < jsToNum oldE ∨ cur = 0 then cur * p
      else jsToNum oldC + (cur - jsToNum oldE) * p) then
      (some (if cur < jsToNum oldE ∨ cur = 0 then cur * p
        else jsToNum oldC + (cur - jsToNum oldE) * p),
       [("meter_session_cost", CapVal.num (if cur < jsToNum oldE ∨ cur = 0
         then cur * p else jsToNum oldC + (cur - jsToNum oldE) * p))])
    else (oldC, ([] : List Write))).2 =
    [("meter_session_cost", CapVal.num
      (if cur < jsToNum oldE ∨ cur = 0 then cur * p
       else jsToNum oldC + (cur - jsToNum oldE) * p))]
  rw [if_pos h]

theorem filter_map_fst_wcscv {α : Type} [DecidableEq α] (p : String → Bool)
    (n : String) (f : α → CapVal) (old : Option α) (v : α)
    (hp : p n = false) :
    (((whenChangedSetCapabilityValue n f old v).2.map Prod.fst).filter p) = [] := by
  unfold whenChangedSetCapabilityValue
  split <;> simp [hp]

theorem wcsc_writes_ok (s : DeviceState) (stats : ChargerSnapshot)
    (sr : Option (List Session)) (id : String) (c : ChargerConfig) (T : ℚ)
    (hc : stats.config_data = some c)
    (hr : retrieveEnergyHistoricalTotal sr id = Except.ok T) :
    (whenChangedSetCapabilities s stats sr id).2.1 =
      (whenChangedSetCapabilityValue "locked" CapVal.bool s.locked c.locked).2 ++
      (whenChangedSetCapabilityValue "onoff" CapVal.bool s.onoff
        (getChargerStatusName stats != "Paused")).2 ++
      (whenChangedSetCapabilityValue "maximum_available_current" CapVal.num
        s.maximum_available_current c.max_available_current).2 ++
      (whenChangedSetCapabilityValue "measure_power" CapVal.num s.measure_power
        (stats.charging_power * 1000)).2 ++
      (if stats.added_energy + T ≠ jsToNum s.meter_power_session + T then
        [("meter_power", CapVal.num (T + stats.added_energy))]
      else []) ++
      (whenChangedSetSessionCost s.meter_session_cost stats.added_energy
        s.meter_power_session c.energy_price).2 ++
      (whenChangedSetCapabilityValue "meter_power_session" CapVal.num
        s.meter_power_session stats.added_energy).2 ++
      (whenChangedSetCapabilityValue "measure_energy_cost" CapVal.num
        s.measure_energy_cost c.energy_price).2 ++
      (whenChangedSetCapabilityValue "measure_maximum_charging_current"
        CapVal.num s.measure_maximum_charging_current c.max_charging_current).2 ++
      (whenChangedSetCapabilityValue "user_id" CapVal.str s.user_id
        (toString stats.user_id)).2 ++
      (whenChangedSetCapabilityValue "user_name" CapVal.str s.user_name
        stats.user_name).2 := by
  by_cases hT : stats.added_energy + T ≠ jsToNum s.meter_power_session + T
  · simp [whenChangedSetCapabilities, whenChangedSetTotalEnergy, hc, hr,
      wcscv_fst, hT]
  · push_neg at hT
    simp [whenChangedSetCapabilities, whenChangedSetTotalEnergy, hc, hr,
      wcscv_fst, hT]

theorem poll_decompose (s : DeviceState) (snap : ChargerSnapshot)
    (sr : Option (List Session)) (id : String) :
    poll s (some snap) sr id =
      { state := (whenChangedSetCapabilities
          (whenChangedSetAndTriggerStatus (checkDeviceAvailability s snap)
            snap).1 snap sr id).1,
        writes := (whenChangedSetAndTriggerStatus (checkDeviceAvailability s snap)
            snap).2.1 ++
          (whenChangedSetCapabilities
            (whenChangedSetAndTriggerStatus (checkDeviceAvailability s snap)
              snap).1 snap sr id).2.1,
        events := (whenChangedSetAndTriggerStatus (checkDeviceAvailability s snap)
            snap).2.2,
        error := (whenChangedSetCapabilities
          (whenChangedSetAndTriggerStatus (checkDeviceAvailability s snap)
            snap).1 snap sr id).2.2 } := rfl

theorem poll_state (s : DeviceState) (snap : ChargerSnapshot)
    (sr : Option (List Session)) (id : String) :
    (poll s (some snap) sr id).state =
      (whenChangedSetCapabilities
        (whenChangedSetAndTriggerStatus (checkDeviceAvailability s snap) snap).1
        snap sr id).1 := rfl

theorem poll_silent (t : DeviceState) (snap : ChargerSnapshot)
    (sr : Option (List Session)) (id : String)
    (hst : t.status = some (getChargerStatusName snap))
    (hw : (whenChangedSetCapabilities (checkDeviceAvailability t snap) snap
        sr id).2.1 = []) :
    (poll t (some snap) sr id).writes = [] ∧
    (poll t (some snap) sr id).events = [] := by
  have hst2 : (checkDeviceAvailability t snap).status =
      some (getChargerStatusName snap) := by
    rw [cda_eq]
    exact hst
  simp [poll, retrieveChargerStats, wcsats_silent _ _ hst2, hw]

/-- C1: for every previous session energy, previous cost and price, the
session-cost computation returns `currentEnergy * pricePerUnit` when
`currentEnergy < previousEnergy` or `currentEnergy = 0` (session
reset), and `previousCost + (currentEnergy - previousEnergy) *
pricePerUnit` otherwise (session continuing). -/
theorem C1_sessionCostFormula (cur prev prevCost price : ℚ) :
    (whenChangedSetSessionCost (some prevCost) cur (some prev) price).1 =
      some (if cur < prev ∨ cur = 0 then cur * price
            else prevCost + (cur - prev) * price) := by
  simpa using wcssc_fst (some prevCost) cur (some prev) price

/-- C2: for distinct old and new canonical statuses the transition
notifier emits `status_changed` first and emits nothing further when
the new status is `Error` or `Updating`; Charging -> Ready emits
exactly `[status_changed, charging_ended, car_unplugged]` in that
order and Ready -> Error emits exactly `[status_changed]`. -/
theorem C2_statusTransitionEvents (oldS newS : String) (_hne : oldS ≠ newS) :
    (triggerStatusChange (some oldS) newS).head? =
        some (Event.status_changed (some oldS) newS) ∧
    (newS = "Error" ∨ newS = "Updating" →
      triggerStatusChange (some oldS) newS =
        [Event.status_changed (some oldS) newS]) ∧
    triggerStatusChange (some "Charging") "Ready" =
      [Event.status_changed (some "Charging") "Ready", Event.charging_ended,
       Event.car_unplugged] ∧
    triggerStatusChange (some "Ready") "Error" =
      [Event.status_changed (some "Ready") "Error"] := by
  refine ⟨rfl, ?_, by decide, by decide⟩
  intro h
  rcases h with h | h <;> simp [triggerStatusChange, h]

/-- Witness for C2 at the concrete transition Charging -> Ready. -/
theorem C2_witness :
    ("Charging" : String) ≠ "Ready" ∧
    ((triggerStatusChange (some "Charging") "Ready").head? =
        some (Event.status_changed (some "Charging") "Ready") ∧
     (("Ready" : String) = "Error" ∨ ("Ready" : String) = "Updating" →
       triggerStatusChange (some "Charging") "Ready" =
         [Event.status_changed (some "Charging") "Ready"]) ∧
     triggerStatusChange (some "Charging") "Ready" =
       [Event.status_changed (some "Charging") "Ready", Event.charging_ended,
        Event.car_unplugged] ∧
     triggerStatusChange (some "Ready") "Error" =
       [Event.status_changed (some "Ready") "Error"]) :=
  ⟨by decide, C2_statusTransitionEvents "Charging" "Ready" (by decide)⟩

theorem wcscv_writes {α : Type} [DecidableEq α] (n : String) (f : α → CapVal)
    (old : Option α) (v : α) :
    (whenChangedSetCapabilityValue n f old v).2 = [] ∨
    (whenChangedSetCapabilityValue n f old v).2 = [(n, f v)] := by
  unfold whenChangedSetCapabilityValue
  split
  · right
    rfl
  · left
    rfl

theorem mem_map_fst_wcscv {α : Type} [DecidableEq α] {m n : String}
    {f : α → CapVal} {old : Option α} {v : α} :
    m ∈ (whenChangedSetCapabilityValue n f old v).2.map Prod.fst ↔
      old ≠ some v ∧ m = n := by
  unfold whenChangedSetCapabilityValue
  split <;> rename_i h <;> simp [h]

theorem ite_write_snd {α : Type} [DecidableEq α] (old : Option α) (v : α)
    (w : List Write) :
    (if old ≠ some v then (some v, w) else (old, ([] : List Write))).2 = [] ∨
    (if old ≠ some v then (some v, w) else (old, ([] : List Write))).2 = w := by
  split
  · right
    rfl
  · left
    rfl

theorem wcssc_writes (oldC : Option ℚ) (cur : ℚ) (oldE : Option ℚ) (p : ℚ) :
    (whenChangedSetSessionCost oldC cur oldE p).2 = [] ∨
    ∃ q, (whenChangedSetSessionCost oldC cur oldE p).2 =
      [("meter_session_cost", CapVal.num q)] := by
  rcases ite_write_snd oldC
      (if cur < jsToNum oldE ∨ cur = 0 then cur * p
       else jsToNum oldC + (cur - jsToNum oldE) * p)
      [("meter_session_cost", CapVal.num
        (if cur < jsToNum oldE ∨ cur = 0 then cur * p
         else jsToNum oldC + (cur - jsToNum oldE) * p))] with hs | hs
  · exact Or.inl hs
  · exact Or.inr ⟨_, hs⟩

theorem pair_mem_wcscv {α : Type} [DecidableEq α] {m : String} {x : CapVal}
    {n : String} {f : α → CapVal} {old : Option α} {v : α} :
    (m, x) ∈ (whenChangedSetCapabilityValue n f old v).2 ↔
      old ≠ some v ∧ m = n ∧ x = f v := by
  unfold whenChangedSetCapabilityValue
  split <;> rename_i hsp <;> simp [hsp, and_assoc]

theorem wcsats_writes (s : DeviceState) (stats : ChargerSnapshot) :
    (whenChangedSetAndTriggerStatus s stats).2.1 = [] ∨
    (whenChangedSetAndTriggerStatus s stats).2.1 =
      [("status", CapVal.str (getChargerStatusName stats))] := by
  unfold whenChangedSetAndTriggerStatus
  by_cases h : s.status = some (getChargerStatusName stats) <;> simp [h]

/-- C10: when the snapshot's current session energy equals the held
`meter_power_session` value, the `meter_power` (lifetime energy)
observable is never written, whatever the historical total is. -/
theorem C10_lifetimeFrame (s : DeviceState) (snap : ChargerSnapshot)
    (sr : Option (List Session)) (id : String)
    (h : s.meter_power_session = some snap.added_energy) :
    "meter_power" ∉ ((poll s (some snap) sr id).writes.map Prod.fst) := by
  have hu : (whenChangedSetAndTriggerStatus (checkDeviceAvailability s snap)
      snap).1.meter_power_session = some snap.added_energy := by
    simp [wcsats_fst, cda_eq, h]
  rcases hcfg : snap.config_data with _ | c
  · rcases wcsats_writes (checkDeviceAvailability s snap) snap with hw | hw <;>
      simp [poll, retrieveChargerStats, whenChangedSetCapabilities, hcfg, hw]
  · rcases hr : retrieveEnergyHistoricalTotal sr id with e | T
    · rcases wcsats_writes (checkDeviceAvailability s snap) snap with hw | hw <;>
        simp [poll, retrieveChargerStats, whenChangedSetCapabilities,
          whenChangedSetTotalEnergy, hcfg, hr, hw, pair_mem_wcscv]
    · rcases wcssc_writes (whenChangedSetAndTriggerStatus
          (checkDeviceAvailability s snap) snap).1.meter_session_cost
          snap.added_energy (some snap.added_energy) c.energy_price
          with hw6 | ⟨q, hw6⟩ <;>
        rcases wcsats_writes (checkDeviceAvailability s snap) snap with hw | hw <;>
          simp [poll, retrieveChargerStats, whenChangedSetCapabilities,
            whenChangedSetTotalEnergy, hcfg, hr, hw, hw6, hu, pair_mem_wcscv]

/-- Witness for C10: held session energy equals the snapshot's (both 2)
while the held lifetime value 10 differs from the freshly computed
historical total 5 plus current 2; still no `meter_power` write. -/
theorem C10_witness :
    exState7.meter_power_session = some exSnap.added_energy ∧
    retrieveEnergyHistoricalTotal (some [⟨"A", some 5⟩]) "A" = Except.ok 5 ∧
    exState7.meter_power = some 10 ∧
    "meter_power" ∉
      ((poll exState7 (some exSnap) (some [⟨"A", some 5⟩]) "A").writes.map
        Prod.fst) :=
  ⟨by decide, by simp [retrieveEnergyHistoricalTotal], by decide,
   C10_lifetimeFrame exState7 exSnap (some [⟨"A", some 5⟩]) "A" (by decide)⟩

/-- Counterexample to C5 as stated: on a snapshot whose config block is
missing, the poll cycle marks the device available (its reported status
is Charging) and rejects with a `TypeError` that propagates to the
scheduler, instead of aborting as unavailable with no error. -/
theorem C5_counterexample :
    (poll exState (some exSnapNoConfig) (some []) "A").state.available = true ∧
    (poll exState (some exSnapNoConfig) (some []) "A").error =
      some JsError.typeError := by
  constructor
  · decide
  · decide

/-- C5 (amended): a snapshot with a missing config block makes the poll
cycle throw a `TypeError` that propagates out of the cycle; availability
is still set from the reported status (unavailable only for
Disconnected/Error), the status observable is the only possible write,
and the status events are the only possible events. -/
theorem C5_missingConfigPropagates (s : DeviceState) (snap : ChargerSnapshot)
    (sr : Option (List Session)) (id : String)
    (hc : snap.config_data = none) :
    (poll s (some snap) sr id).error = some JsError.typeError ∧
    (poll s (some snap) sr id).state.available =
      !(decide (getChargerStatusName snap = "Disconnected" ∨
                getChargerStatusName snap = "Error")) ∧
    (poll s (some snap) sr id).writes =
      (if s.status ≠ some (getChargerStatusName snap) then
        [("status", CapVal.str (getChargerStatusName snap))]
      else []) ∧
    (poll s (some snap) sr id).events =
      (if s.status ≠ some (getChargerStatusName snap) then
        triggerStatusChange s.status (getChargerStatusName snap)
      else []) := by
  by_cases hst : s.status = some (getChargerStatusName snap) <;>
    simp [poll, retrieveChargerStats, whenChangedSetCapabilities, hc, cda_eq,
      whenChangedSetAndTriggerStatus, hst]

/-- Witness for C5 at a concrete malformed snapshot. -/
theorem C5_witness :
    exSnapNoConfig.config_data = none ∧
    ((poll exState (some exSnapNoConfig) (some []) "A").error =
        some JsError.typeError ∧
     (poll exState (some exSnapNoConfig) (some []) "A").state.available =
       !(decide (getChargerStatusName exSnapNoConfig = "Disconnected" ∨
                 getChargerStatusName exSnapNoConfig = "Error")) ∧
     (poll exState (some exSnapNoConfig) (some []) "A").writes =
       (if exState.status ≠ some (getChargerStatusName exSnapNoConfig) then
         [("status", CapVal.str (getChargerStatusName exSnapNoConfig))]
       else []) ∧
     (poll exState (some exSnapNoConfig) (some []) "A").events =
       (if exState.status ≠ some (getChargerStatusName exSnapNoConfig) then
         triggerStatusChange exState.status (getChargerStatusName exSnapNoConfig)
       else [])) :=
  ⟨by decide,
   C5_missingConfigPropagates exState exSnapNoConfig (some []) "A" (by decide)⟩

/-- C3: running the poll cycle a second time with an identical snapshot
(and identical session history) performs zero observable writes and
emits zero events on the second run. -/
theorem C3_pollIdempotent (s : DeviceState) (snap : ChargerSnapshot)
    (sr : Option (List Session)) (id : String) :
    (poll (poll s (some snap) sr id).state (some snap) sr id).writes = [] ∧
    (poll (poll s (some snap) sr id).state (some snap) sr id).events = [] := by
  rcases hcfg : snap.config_data with _ | c
  · have ht : (poll s (some snap) sr id).state =
        (whenChangedSetAndTriggerStatus (checkDeviceAvailability s snap) snap).1 := by
      rw [poll_state]
      simp [whenChangedSetCapabilities, hcfg]
    refine poll_silent _ snap sr id ?_ ?_
    · simp [ht, wcsats_fst]
    · simp [whenChangedSetCapabilities, hcfg]
  · rcases hr : retrieveEnergyHistoricalTotal sr id with e | T
    · have ht := (wcsc_state_err
        (whenChangedSetAndTriggerStatus (checkDeviceAvailability s snap) snap).1
        snap sr id c e hcfg hr).1
      rw [← poll_state] at ht
      refine poll_silent _ snap sr id ?_
        (wcsc_silent_err _ snap sr id c e hcfg hr ?_ ?_ ?_ ?_) <;>
        simp [ht, wcsats_fst, cda_eq]
    · have ht := (wcsc_state_ok
        (whenChangedSetAndTriggerStatus (checkDeviceAvailability s snap) snap).1
        snap sr id c T hcfg hr).1
      rw [← poll_state] at ht
      refine poll_silent _ snap sr id ?_ ?_
      · simp [ht, wcsats_fst, cda_eq]
      · refine wcsc_silent_ok _ snap sr id c T
          (if snap.added_energy < jsToNum s.meter_power_session ∨
              snap.added_energy = 0 then
            snap.added_energy * c.energy_price
          else jsToNum s.meter_session_cost +
            (snap.added_energy - jsToNum s.meter_power_session) * c.energy_price)
          hcfg hr ?_ ?_ ?_ ?_ ?_ ?_ ?_ ?_ ?_ ?_ ?_
        · simp [ht, wcsats_fst, cda_eq]
        · simp [ht, wcsats_fst, cda_eq]
        · simp [ht, wcsats_fst, cda_eq]
        · simp [ht, wcsats_fst, cda_eq]
        · simp [ht, wcsats_fst, cda_eq]
        · simp [ht, wcsats_fst, cda_eq, wcssc_fst]
        · intro h0
          simp [h0]
        · simp [ht, wcsats_fst, cda_eq]
        · simp [ht, wcsats_fst, cda_eq]
        · simp [ht, wcsats_fst, cda_eq]
        · simp [ht, wcsats_fst, cda_eq]

/-- C4: when the snapshot fetch fails, the poll cycle terminates
without any reconciliation: every observable keeps its previous value,
`available` is set to `false`, and no writes or events occur. -/
theorem C4_fetchFailureFrame (s : DeviceState) (sr : Option (List Session))
    (id : String) :
    poll s none sr id =
      { state := { s with available := false }, writes := [], events := [],
        error := none } := rfl

theorem reht_sum (l : List Session) (id : String) (acc : ℚ) :
    l.foldl (fun totalEnergy session =>
      if session.charger = id then
        match session.energy with
        | some e => totalEnergy + e
        | none => totalEnergy
      else totalEnergy) acc =
    acc + ((l.filter (fun x => x.charger == id)).filterMap
      (fun x => x.energy)).sum := by
  induction l generalizing acc with
  | nil => simp
  | cons hd tl ih =>
    by_cases hc : hd.charger = id
    · cases he : hd.energy with
      | none => simp [hc, he, ih]
      | some e => simp [hc, he, ih, add_assoc]
    · simp [hc, ih]

/-- C6 (amended): the lifetime-energy computation sums the energy of the
sessions belonging to the device id, skipping sessions whose energy is
undefined, and the written lifetime value adds the current session
energy — the spec's example gives 7 and an empty session list
contributes zero — but a response missing its session list throws
instead of contributing zero. -/
theorem C6_energyTotal (l : List Session) (id : String) (s : DeviceState) :
    retrieveEnergyHistoricalTotal (some l) id =
      Except.ok (((l.filter (fun x => x.charger == id)).filterMap
        (fun x => x.energy)).sum) ∧
    retrieveEnergyHistoricalTotal (some []) id = Except.ok 0 ∧
    retrieveEnergyHistoricalTotal (some exSessions) "A" = Except.ok 5 ∧
    (whenChangedSetTotalEnergy s 2 (some 1) (some exSessions) "A").1.meter_power
      = some 7 := by
  refine ⟨?_, ?_, ?_, ?_⟩
  · simp [retrieveEnergyHistoricalTotal, reht_sum]
  · simp [retrieveEnergyHistoricalTotal]
  · simp [retrieveEnergyHistoricalTotal, exSessions]
  · have hr6 : retrieveEnergyHistoricalTotal (some exSessions) "A" =
        Except.ok 5 := by
      simp [retrieveEnergyHistoricalTotal, exSessions]
    simp only [whenChangedSetTotalEnergy, hr6, jsToNum_some]
    norm_num

/-- Counterexample to C6 as stated: a session response with a missing
session list does not contribute zero — iterating it throws, and the
error fails the whole poll cycle. -/
theorem C6_counterexample :
    retrieveEnergyHistoricalTotal none "A" = Except.error JsError.typeError ∧
    (poll exState (some exSnap) none "A").error = some JsError.typeError := by
  exact ⟨rfl, rfl⟩

/-- C7 (amended): `whenChangedSetCapabilityValue` writes exactly when
the incoming value differs from the held one, and
`whenChangedSetSessionCost` only ever stores a value different from the
held cost when it writes; `whenChangedSetTotalEnergy`, however, decides
by comparing the current with the previous session energy — not with
the held lifetime value — so it writes only when the session energy
changed. -/
theorem C7_differWriteDiscipline :
    (∀ (α : Type) (inst : DecidableEq α) (n : String) (f : α → CapVal)
        (old : Option α) (v : α),
      (@whenChangedSetCapabilityValue α inst n f old v).2 = [] ↔ old = some v) ∧
    (∀ (oldC : Option ℚ) (cur : ℚ) (oldE : Option ℚ) (p : ℚ),
      (whenChangedSetSessionCost oldC cur oldE p).2 = [] ∨
      (whenChangedSetSessionCost oldC cur oldE p).1 ≠ oldC) ∧
    (∀ (s : DeviceState) (cur : ℚ) (old : Option ℚ)
        (sr : Option (List Session)) (id : String),
      (whenChangedSetTotalEnergy s cur old sr id).2.1 = [] ∨
      cur ≠ jsToNum old) := by
  refine ⟨?_, ?_, ?_⟩
  · intro α inst n f old v
    unfold whenChangedSetCapabilityValue
    split <;> rename_i h <;> simp [h]
    exact not_not.mp h
  · intro oldC cur oldE p
    exact ite_write_cases oldC _ _
  · intro s cur old sr id
    unfold whenChangedSetTotalEnergy
    cases hr : retrieveEnergyHistoricalTotal sr id with
    | error e => simp [hr]
    | ok T =>
      simp only [hr]
      split
      · rename_i h
        exact Or.inr (fun heq => h (by rw [heq]))
      · exact Or.inl rfl

/-- Counterexample to C7 as stated: with held lifetime value 10, a
session reset (current energy 0, previous 2) with historical total 10
invokes the `meter_power` write with the value 10 it already holds. -/
theorem C7_counterexample :
    exState7.meter_power = some 10 ∧
    (poll exState7 (some exSnap7) (some [⟨"A", some 10⟩]) "A").writes =
      [("meter_power", CapVal.num 10), ("meter_session_cost", CapVal.num 0),
       ("meter_power_session", CapVal.num 0)] := by
  refine ⟨rfl, ?_⟩
  have hname : getChargerStatusName exSnap7 = "Charging" := by
    simp [getChargerStatusName, exSnap7, getStatus]
  have hcda : checkDeviceAvailability exState7 exSnap7 =
      { exState7 with available := true } := by
    rw [cda_eq, hname]
    simp
  have hst : whenChangedSetAndTriggerStatus { exState7 with available := true }
      exSnap7 = ({ exState7 with available := true }, [], []) :=
    wcsats_silent _ _ (by rw [hname]; rfl)
  have hr7 : retrieveEnergyHistoricalTotal (some [⟨"A", some 10⟩]) "A" =
      Except.ok 10 := by
    simp [retrieveEnergyHistoricalTotal]
  rw [poll_decompose, hcda, hst]
  rw [wcsc_writes_ok _ exSnap7 _ "A" exConfig 10 rfl hr7]
  simp [whenChangedSetCapabilityValue, whenChangedSetSessionCost, exState7,
    exSnap7, exConfig, jsToNum, getChargerStatusName, getStatus,
    show (("Charging" != "Paused")) = true from rfl,
    show ((5:ℚ) * 1000) = 5000 from by norm_num,
    show ((0:ℚ) + 10) = 10 from by norm_num,
    show ((2:ℚ) + 10) = 12 from by norm_num,
    show (((10:ℚ) = 12)) = False from by norm_num,
    show ((10:ℚ) + 0) = 10 from by norm_num,
    show (((2:ℚ) = 0)) = False from by norm_num,
    show (((1:ℚ) = 0)) = False from by norm_num]

/-- C8 (amended): the session-cost computation reads the previously
held session energy before `meter_power_session` is overwritten, and
whenever all three session-derived observables are written in a cycle
they are written in the order lifetimeEnergy (`meter_power`),
sessionCost (`meter_session_cost`), sessionEnergy
(`meter_power_session`) — not sessionEnergy first. -/
theorem C8_writeOrder (s : DeviceState) (snap : ChargerSnapshot)
    (l : List Session) (id : String) (c : ChargerConfig) (T : ℚ)
    (hc : snap.config_data = some c)
    (hr : retrieveEnergyHistoricalTotal (some l) id = Except.ok T)
    (hT : snap.added_energy + T ≠ jsToNum s.meter_power_session + T)
    (hcost : s.meter_session_cost ≠
      (whenChangedSetSessionCost s.meter_session_cost snap.added_energy
        s.meter_power_session c.energy_price).1)
    (hses : s.meter_power_session ≠ some snap.added_energy) :
    (((whenChangedSetCapabilities s snap (some l) id).2.1.map Prod.fst).filter
        threeNames) =
      ["meter_power", "meter_session_cost", "meter_power_session"] ∧
    (whenChangedSetCapabilities s snap (some l) id).1.meter_session_cost =
      (whenChangedSetSessionCost s.meter_session_cost snap.added_energy
        s.meter_power_session c.energy_price).1 := by
  constructor
  · rw [wcsc_writes_ok s snap (some l) id c T hc hr, if_pos hT,
      wcssc_snd_of_ne _ _ _ _ hcost,
      wcscv_snd_of_ne "meter_power_session" CapVal.num s.meter_power_session
        snap.added_energy hses]
    simp [filter_map_fst_wcscv threeNames "locked" CapVal.bool s.locked
        c.locked rfl,
      filter_map_fst_wcscv threeNames "onoff" CapVal.bool s.onoff
        (getChargerStatusName snap != "Paused") rfl,
      filter_map_fst_wcscv threeNames "maximum_available_current" CapVal.num
        s.maximum_available_current c.max_available_current rfl,
      filter_map_fst_wcscv threeNames "measure_power" CapVal.num
        s.measure_power (snap.charging_power * 1000) rfl,
      filter_map_fst_wcscv threeNames "measure_energy_cost" CapVal.num
        s.measure_energy_cost c.energy_price rfl,
      filter_map_fst_wcscv threeNames "measure_maximum_charging_current"
        CapVal.num s.measure_maximum_charging_current c.max_charging_current rfl,
      filter_map_fst_wcscv threeNames "user_id" CapVal.str s.user_id
        (toString snap.user_id) rfl,
      filter_map_fst_wcscv threeNames "user_name" CapVal.str s.user_name
        snap.user_name rfl,
      show threeNames "meter_power" = true from rfl,
      show threeNames "meter_session_cost" = true from rfl,
      show threeNames "meter_power_session" = true from rfl]
  · rw [(wcsc_state_ok s snap (some l) id c T hc hr).1]

/-- Counterexample to C8 as stated: a concrete cycle in which exactly
the three session-derived observables change writes them in the order
`meter_power` (lifetime), `meter_session_cost`, `meter_power_session` —
the reverse of the claimed sessionEnergy, sessionCost, lifetimeEnergy
order. -/
theorem C8_counterexample :
    (poll exState8 (some exSnap) (some [⟨"A", some 5⟩]) "A").writes =
      [("meter_power", CapVal.num 7), ("meter_session_cost", CapVal.num (3/2)),
       ("meter_power_session", CapVal.num 2)] := by
  have hname : getChargerStatusName exSnap = "Charging" := by
    simp [getChargerStatusName, exSnap, getStatus]
  have hcda : checkDeviceAvailability exState8 exSnap =
      { exState8 with available := true } := by
    rw [cda_eq, hname]
    simp
  have hst : whenChangedSetAndTriggerStatus { exState8 with available := true }
      exSnap = ({ exState8 with available := true }, [], []) :=
    wcsats_silent _ _ (by rw [hname]; rfl)
  have hr8 : retrieveEnergyHistoricalTotal (some [⟨"A", some 5⟩]) "A" =
      Except.ok 5 := by
    simp [retrieveEnergyHistoricalTotal]
  rw [poll_decompose, hcda, hst]
  rw [wcsc_writes_ok _ exSnap _ "A" exConfig 5 rfl hr8]
  simp [whenChangedSetCapabilityValue, whenChangedSetSessionCost, exState8,
    exSnap, exConfig, jsToNum, getChargerStatusName, getStatus,
    show ((5:ℚ) * 1000) = 5000 from by norm_num,
    show ((2:ℚ) + 5) = 7 from by norm_num,
    show ((1:ℚ) + 5) = 6 from by norm_num,
    show (((7:ℚ) = 6)) = False from by norm_num,
    show ((5:ℚ) + 2) = 7 from by norm_num,
    show (((2:ℚ) < 1)) = False from by norm_num,
    show (((2:ℚ) = 0)) = False from by norm_num,
    show ((2:ℚ) - 1) = 1 from by norm_num,
    show ((1:ℚ) * (1/2 : ℚ)) = 1/2 from by norm_num,
    show ((1:ℚ) + (1/2 : ℚ)) = 3/2 from by norm_num,
    show (((1:ℚ) = 3/2)) = False from by norm_num,
    show (((1:ℚ) = 2)) = False from by norm_num]
  norm_num

/-- Witness for C8 at a concrete cycle: config present, historical
total 5, current session energy 2 against held 1, held cost 1. -/
theorem C8_witness :
    exSnap.config_data = some exConfig ∧
    retrieveEnergyHistoricalTotal (some [⟨"A", some 5⟩]) "A" = Except.ok 5 ∧
    exSnap.added_energy + 5 ≠ jsToNum exState8.meter_power_session + 5 ∧
    exState8.meter_session_cost ≠
      (whenChangedSetSessionCost exState8.meter_session_cost
        exSnap.added_energy exState8.meter_power_session
        exConfig.energy_price).1 ∧
    exState8.meter_power_session ≠ some exSnap.added_energy ∧
    ((((whenChangedSetCapabilities exState8 exSnap (some [⟨"A", some 5⟩])
          "A").2.1.map Prod.fst).filter threeNames) =
        ["meter_power", "meter_session_cost", "meter_power_session"] ∧
     (whenChangedSetCapabilities exState8 exSnap (some [⟨"A", some 5⟩])
          "A").1.meter_session_cost =
       (whenChangedSetSessionCost exState8.meter_session_cost
         exSnap.added_energy exState8.meter_power_session
         exConfig.energy_price).1) := by
  have hr : retrieveEnergyHistoricalTotal (some [⟨"A", some 5⟩]) "A" =
      Except.ok 5 := by
    simp [retrieveEnergyHistoricalTotal]
  have hT : exSnap.added_energy + 5 ≠ jsToNum exState8.meter_power_session + 5 := by
    norm_num [exSnap, exState8, jsToNum]
  have hcost : exState8.meter_session_cost ≠
      (whenChangedSetSessionCost exState8.meter_session_cost
        exSnap.added_energy exState8.meter_power_session
        exConfig.energy_price).1 := by
    norm_num [exSnap, exState8, exConfig, wcssc_fst, jsToNum]
  have hses : exState8.meter_power_session ≠ some exSnap.added_energy := by
    norm_num [exSnap, exState8]
  exact ⟨rfl, hr, hT, hcost, hses,
    C8_writeOrder exState8 exSnap [⟨"A", some 5⟩] "A" exConfig 5 rfl hr hT
      hcost hses⟩

/-- C9: the scheduler runs the cycle exactly once immediately on start
and arms a periodic timer firing once per period; reconfiguring cancels
the previous timer and re-arms it with the new period, with zero extra
immediate cycle invocations. -/
theorem C9_scheduler (t : SchedTimer) (pollingSetting : Option ℚ)
    (newPolling : ℚ) :
    (runSchedActions t (setupDevicePollingAndDoFirstPoll pollingSetting)).2 = 1 ∧
    (runSchedActions t
        (setupDevicePollingAndDoFirstPoll pollingSetting)).1.period.isSome = true ∧
    tickPolls
        (runSchedActions t (setupDevicePollingAndDoFirstPoll pollingSetting)).1 = 1 ∧
    runSchedActions
        (runSchedActions t (setupDevicePollingAndDoFirstPoll pollingSetting)).1
        (onSettings newPolling) =
      (⟨some (1000 * newPolling)⟩, 0) := by
  rcases pollingSetting with _ | p
  · simp [runSchedActions, setupDevicePollingAndDoFirstPoll, onSettings,
      runSchedAction, tickPolls]
  · by_cases hp : p = 0 <;>
      simp [runSchedActions, setupDevicePollingAndDoFirstPoll, onSettings,
        runSchedAction, tickPolls, hp]

end Wallbox
